import Mathlib

/-!
Shallow embedding of the voice conversation client of this repository
(src/src/App.tsx and the ChatInterface variant src/unnamed/part_000):
the model router (determineOptimalModel), the continuous
voice-activity-detection loop (monitorVoiceActivity, modelled as a step
function over its closure state), and the turn pipeline
(processRecording, handleTextSubmit, startContinuousListening,
handleStartChat).  External collaborators (transcription, streamed
generation, speech synthesis, the microphone) are modelled as oracle
arguments; timestamps are JS `Date.now()` values modelled as `Int`.
-/

namespace VoiceAI

/-! JavaScript string primitives used by the source. -/

/-- JS `String.prototype.toLowerCase` (character-wise, as used on the
ASCII prompts of the router). -/
def jsToLower (s : String) : String :=
  ⟨s.data.map Char.toLower⟩

/-- One step of substring search over character lists. -/
def occursInChars (needle : List Char) : List Char → Bool
  | [] => needle.isEmpty
  | c :: rest => needle.isPrefixOf (c :: rest) || occursInChars needle rest

/-- JS `s.includes(sub)`: `sub` occurs as a contiguous substring of `s`. -/
def occursIn (s sub : String) : Bool :=
  occursInChars sub.data s.data

/-- JS `String.prototype.trim`: drop whitespace from both ends. -/
def jsTrim (s : String) : String :=
  ⟨((s.data.dropWhile Char.isWhitespace).reverse.dropWhile Char.isWhitespace).reverse⟩

/-- JS `s || ''` on a string: the empty string is falsy, every other
string is returned unchanged. -/
def jsOrEmpty (s : String) : String :=
  if s = "" then "" else s

/-!
Model router: `determineOptimalModel` (src/src/App.tsx lines 126-151,
src/unnamed/part_000 lines 97-122).  The `selectedModel` React state
(the explicit override, `"auto"` when no override is chosen) is the
first argument.
-/

def determineOptimalModel (selectedModel : String) (prompt : String) : String :=
  if selectedModel ≠ "auto" then selectedModel
  else
    let lowerPrompt := jsToLower prompt
    if occursIn lowerPrompt "code" || occursIn lowerPrompt "programming" ||
       occursIn lowerPrompt "function" || occursIn lowerPrompt "debug" then
      "gpt-4o"
    else if occursIn lowerPrompt "write" || occursIn lowerPrompt "story" ||
       occursIn lowerPrompt "creative" || occursIn lowerPrompt "poem" then
      "claude-3-5-sonnet-20241022"
    else if occursIn lowerPrompt "analyze" || occursIn lowerPrompt "explain" ||
       occursIn lowerPrompt "compare" || occursIn lowerPrompt "why" then
      "gpt-4o"
    else
      "gpt-4o-mini"

/-!
Spec-side restatement of the router, written from the wording of
spec.md section 4.3 (fixed precedence order, first match wins,
case-insensitive substring match), to be compared with the source
translation above.
-/

def codeKeywords : List String := ["code", "programming", "function", "debug"]

def creativeKeywords : List String := ["write", "story", "creative", "poem"]

def analysisKeywords : List String := ["analyze", "explain", "compare", "why"]

/-- Modelled from the spec wording of section 4.3: classify by
case-insensitive substring match, in fixed precedence order, first
match wins. -/
def selectModelSpec (utterance : String) : String :=
  let lower := jsToLower utterance
  if codeKeywords.any (fun k => occursIn lower k) then "gpt-4o"
  else if creativeKeywords.any (fun k => occursIn lower k) then "claude-3-5-sonnet-20241022"
  else if analysisKeywords.any (fun k => occursIn lower k) then "gpt-4o"
  else "gpt-4o-mini"

/-- Claim C8: with an explicit override different from "auto" selected,
`determineOptimalModel` returns the override for every utterance; the
keyword classifier branch is never reached. -/
theorem determineOptimalModel_override_wins (selectedModel prompt : String)
    (h : selectedModel ≠ "auto") :
    determineOptimalModel selectedModel prompt = selectedModel := by
  unfold determineOptimalModel
  rw [if_pos h]

/-- Witness for C8: the override "gpt-4o" wins on "write me a poem"
even though the utterance matches a creative-writing keyword. -/
theorem determineOptimalModel_override_wins_witness :
    determineOptimalModel "gpt-4o" "write me a poem" = "gpt-4o" :=
  determineOptimalModel_override_wins "gpt-4o" "write me a poem" (by decide)

/-- Claim C9: in auto mode the router is exactly the spec's
case-insensitive keyword classifier, applied in the fixed precedence
order code - creative - analysis - default, first match winning.  Both
sides are pure functions of the utterance (and the override) alone. -/
theorem determineOptimalModel_auto_classifier (prompt : String) :
    determineOptimalModel "auto" prompt = selectModelSpec prompt := by
  unfold determineOptimalModel selectModelSpec
  simp [codeKeywords, creativeKeywords, analysisKeywords, List.any, Bool.or_assoc]

/-!
Voice-activity detection: `monitorVoiceActivity`
(src/src/App.tsx lines 434-493, src/unnamed/part_000 lines 354-401).

The loop's closure state is `speechStartTime`, `lastSpeechTime` and
`isCurrentlyRecording`; `voiceDetectionRef` is the component-level ref,
and `speechStartTimeRef` is the ref stamped by
`startAutomaticRecording` when a recording actually begins.  Each
animation-frame tick reads the current energy (`rms`, the value the
code compares against `SPEECH_THRESHOLD`) and `Date.now()`; the side
effects are the calls to `startAutomaticRecording` / `stopRecording`,
modelled as emitted events.
-/

def SPEECH_THRESHOLD : Nat := 15

def SPEECH_START_DURATION : Int := 200

def SPEECH_END_DURATION : Int := 1200

def MIN_RECORDING_TIME : Int := 600

structure VadState where
  speechStartTime : Int
  lastSpeechTime : Int
  isCurrentlyRecording : Bool
  voiceDetection : Bool
  recStartTime : Int
  deriving DecidableEq, Repr

inductive VadEvent
  | start
  | stop
  deriving DecidableEq, Repr

/-- One tick of `monitorVoiceActivity`: compare the measured energy
against the threshold and fire the debounced start / stop actions.
`recStartTime` models `speechStartTimeRef.current`, stamped with the
current time when the recording is started. -/
def vadStep (s : VadState) (now : Int) (rms : Nat) : VadState × Option VadEvent :=
  if SPEECH_THRESHOLD < rms then
    let s1 := if s.voiceDetection then s
      else { s with speechStartTime := now, voiceDetection := true }
    let s2 := { s1 with lastSpeechTime := now }
    if s2.isCurrentlyRecording = false ∧ SPEECH_START_DURATION < now - s2.speechStartTime then
      ({ s2 with isCurrentlyRecording := true, recStartTime := now }, some VadEvent.start)
    else
      (s2, none)
  else
    if s.voiceDetection = true ∧ s.isCurrentlyRecording = true then
      if SPEECH_END_DURATION < now - s.lastSpeechTime ∧
          MIN_RECORDING_TIME < now - s.recStartTime then
        ({ s with isCurrentlyRecording := false, voiceDetection := false }, some VadEvent.stop)
      else
        (s, none)
    else if s.isCurrentlyRecording = false then
      ({ s with voiceDetection := false }, none)
    else
      (s, none)

/-- The state when monitoring begins: the closure variables start at 0,
`voiceDetectionRef.current` is reset to false, nothing is recording. -/
def vadInit : VadState :=
  { speechStartTime := 0, lastSpeechTime := 0, isCurrentlyRecording := false,
    voiceDetection := false, recStartTime := 0 }

/-- Final state after a sequence of (time, energy) ticks. -/
def vadRunState (s : VadState) : List (Int × Nat) → VadState
  | [] => s
  | (t, e) :: rest => vadRunState (vadStep s t e).1 rest

/-- The per-tick events of a sequence of (time, energy) ticks. -/
def vadRunEvents (s : VadState) : List (Int × Nat) → List (Option VadEvent)
  | [] => []
  | (t, e) :: rest => (vadStep s t e).2 :: vadRunEvents (vadStep s t e).1 rest

/-- Claim C1: a tick of the monitor invokes `stopRecording` exactly
when the tick is silent, speech had been detected, a recording episode
is active, the measured silence (`now - lastSpeechTime`) exceeds 1200
ms and the active recording (`now - speechStartTimeRef`) exceeds 600
ms.  Every tick of every tick sequence is a `vadStep` from some state,
so in particular a silence-triggered end before the 600 ms minimum
recording duration never invokes `stopRecording`, hence never hands a
clip to transcription. -/
theorem vadStep_stop_iff (s : VadState) (now : Int) (rms : Nat) :
    (vadStep s now rms).2 = some VadEvent.stop ↔
      rms ≤ SPEECH_THRESHOLD ∧ s.voiceDetection = true ∧ s.isCurrentlyRecording = true ∧
        SPEECH_END_DURATION < now - s.lastSpeechTime ∧
        MIN_RECORDING_TIME < now - s.recStartTime := by
  unfold vadStep
  split_ifs with h1 h2 h3 h4 h5 <;>
    simp_all [SPEECH_THRESHOLD, SPEECH_START_DURATION, SPEECH_END_DURATION,
      MIN_RECORDING_TIME] <;>
    first
      | omega
      | (split_ifs with h6 <;> simp_all)

/-!
Case characterization of `vadStep`: six mutually exclusive lemmas, one
per control-flow branch of the tick handler.
-/

theorem vadStep_speech_start (s : VadState) (now : Int) (rms : Nat)
    (h1 : SPEECH_THRESHOLD < rms) (hv : s.voiceDetection = true)
    (hrec : s.isCurrentlyRecording = false)
    (hdur : SPEECH_START_DURATION < now - s.speechStartTime) :
    vadStep s now rms =
      ({ s with lastSpeechTime := now, isCurrentlyRecording := true, recStartTime := now },
        some VadEvent.start) := by
  simp [vadStep, h1, hv, hrec, hdur]

theorem vadStep_speech_continue (s : VadState) (now : Int) (rms : Nat)
    (h1 : SPEECH_THRESHOLD < rms) (hv : s.voiceDetection = true)
    (hc : ¬ (s.isCurrentlyRecording = false ∧ SPEECH_START_DURATION < now - s.speechStartTime)) :
    vadStep s now rms = ({ s with lastSpeechTime := now }, none) := by
  simp only [vadStep, if_pos h1, hv, if_pos]
  rw [if_neg hc]

theorem vadStep_speech_first (s : VadState) (now : Int) (rms : Nat)
    (h1 : SPEECH_THRESHOLD < rms) (hv : s.voiceDetection = false) :
    vadStep s now rms =
      ({ s with speechStartTime := now, voiceDetection := true, lastSpeechTime := now },
        none) := by
  simp [vadStep, h1, hv, SPEECH_START_DURATION]

theorem vadStep_silence_stop (s : VadState) (now : Int) (rms : Nat)
    (h1 : rms ≤ SPEECH_THRESHOLD) (hv : s.voiceDetection = true)
    (hrec : s.isCurrentlyRecording = true)
    (hsil : SPEECH_END_DURATION < now - s.lastSpeechTime)
    (hmin : MIN_RECORDING_TIME < now - s.recStartTime) :
    vadStep s now rms =
      ({ s with isCurrentlyRecording := false, voiceDetection := false },
        some VadEvent.stop) := by
  simp [vadStep, Nat.not_lt.mpr h1, hv, hrec, hsil, hmin]

theorem vadStep_silence_wait (s : VadState) (now : Int) (rms : Nat)
    (h1 : rms ≤ SPEECH_THRESHOLD) (hv : s.voiceDetection = true)
    (hrec : s.isCurrentlyRecording = true)
    (hc : ¬ (SPEECH_END_DURATION < now - s.lastSpeechTime ∧
      MIN_RECORDING_TIME < now - s.recStartTime)) :
    vadStep s now rms = (s, none) := by
  simp only [vadStep, Nat.not_lt.mpr h1, if_false, hv, hrec, and_self, if_true]
  rw [if_neg hc]

theorem vadStep_silence_reset (s : VadState) (now : Int) (rms : Nat)
    (h1 : rms ≤ SPEECH_THRESHOLD) (hrec : s.isCurrentlyRecording = false) :
    vadStep s now rms = ({ s with voiceDetection := false }, none) := by
  by_cases hv : s.voiceDetection = true
  · simp [vadStep, Nat.not_lt.mpr h1, hv, hrec]
  · simp only [Bool.not_eq_true] at hv
    simp [vadStep, Nat.not_lt.mpr h1, hv, hrec]

theorem vadStep_silence_keep (s : VadState) (now : Int) (rms : Nat)
    (h1 : rms ≤ SPEECH_THRESHOLD) (hv : s.voiceDetection = false)
    (hrec : s.isCurrentlyRecording = true) :
    vadStep s now rms = (s, none) := by
  simp [vadStep, Nat.not_lt.mpr h1, hv, hrec]

/-- Start / stop invocations alternate: tracking whether a recording
episode is active, a start is legal only while inactive and a stop only
while active. -/
def startsAlternate : Bool → List (Option VadEvent) → Bool
  | b, none :: rest => startsAlternate b rest
  | false, some VadEvent.start :: rest => startsAlternate true rest
  | true, some VadEvent.stop :: rest => startsAlternate false rest
  | _, [] => true
  | _, _ => false

/-- A tick's event agrees with the recording flag: starts happen only
while inactive and activate it, stops only while active and deactivate
it, and eventless ticks leave the flag unchanged. -/
theorem vadStep_event_flags (s : VadState) (now : Int) (rms : Nat)
    (l : List (Option VadEvent)) :
    startsAlternate s.isCurrentlyRecording ((vadStep s now rms).2 :: l) =
      startsAlternate (vadStep s now rms).1.isCurrentlyRecording l := by
  by_cases h1 : SPEECH_THRESHOLD < rms
  · by_cases hv : s.voiceDetection = true
    · by_cases hrec : s.isCurrentlyRecording = false
      · by_cases hdur : SPEECH_START_DURATION < now - s.speechStartTime
        · rw [vadStep_speech_start s now rms h1 hv hrec hdur]
          simp [startsAlternate, hrec]
        · rw [vadStep_speech_continue s now rms h1 hv (by tauto)]
          simp [startsAlternate]
      · rw [vadStep_speech_continue s now rms h1 hv (by tauto)]
        simp [startsAlternate]
    · simp only [Bool.not_eq_true] at hv
      rw [vadStep_speech_first s now rms h1 hv]
      simp [startsAlternate]
  · have h1 : rms ≤ SPEECH_THRESHOLD := Nat.not_lt.mp h1
    by_cases hrec : s.isCurrentlyRecording = true
    · by_cases hv : s.voiceDetection = true
      · by_cases hc : SPEECH_END_DURATION < now - s.lastSpeechTime ∧
          MIN_RECORDING_TIME < now - s.recStartTime
        · rw [vadStep_silence_stop s now rms h1 hv hrec hc.1 hc.2]
          simp [startsAlternate, hrec]
        · rw [vadStep_silence_wait s now rms h1 hv hrec hc]
          simp [startsAlternate]
      · simp only [Bool.not_eq_true] at hv
        rw [vadStep_silence_keep s now rms h1 hv hrec]
        simp [startsAlternate]
    · simp only [Bool.not_eq_true] at hrec
      rw [vadStep_silence_reset s now rms h1 hrec]
      simp [startsAlternate]

/-- In any run of the monitor, the start / stop invocations alternate
with respect to the initial recording flag. -/
theorem vadRunEvents_alternate :
    ∀ (ticks : List (Int × Nat)) (s : VadState),
      startsAlternate s.isCurrentlyRecording (vadRunEvents s ticks) = true
  | [], s => by cases h : s.isCurrentlyRecording <;> rfl
  | (t, e) :: rest, s => by
    rw [vadRunEvents, vadStep_event_flags]
    exact vadRunEvents_alternate rest (vadStep s t e).1

/-- The tick history ends below the speech threshold (or is empty). -/
def belowLast (h : List (Int × Nat)) : Prop :=
  h = [] ∨ ∃ q tp ep, h = q ++ [(tp, ep)] ∧ ep ≤ SPEECH_THRESHOLD

/-- The tick history ends with a speech episode that began at time
`t0`: a final block of consecutive above-threshold ticks whose first
tick is at time `t0`, preceded (if at all) by a below-threshold tick. -/
def speechEpisode (h : List (Int × Nat)) (t0 : Int) : Prop :=
  ∃ pre e0 mid, h = pre ++ (t0, e0) :: mid ∧ SPEECH_THRESHOLD < e0 ∧
    (∀ x ∈ mid, SPEECH_THRESHOLD < x.2) ∧ belowLast pre

/-- Invariant of the monitor loop tying the closure state to the
processed tick history. -/
def vadInv (h : List (Int × Nat)) (s : VadState) : Prop :=
  (s.voiceDetection = false → belowLast h) ∧
  (s.voiceDetection = true → s.isCurrentlyRecording = false →
    speechEpisode h s.speechStartTime)

theorem vadInv_init : vadInv [] vadInit := by
  constructor
  · intro _
    exact Or.inl rfl
  · intro hvd _
    simp [vadInit] at hvd

theorem vadInv_step (h : List (Int × Nat)) (s : VadState) (t : Int) (e : Nat)
    (hinv : vadInv h s) : vadInv (h ++ [(t, e)]) (vadStep s t e).1 := by
  obtain ⟨hbelow, hepisode⟩ := hinv
  by_cases h1 : SPEECH_THRESHOLD < e
  · by_cases hv : s.voiceDetection = true
    · by_cases hrec : s.isCurrentlyRecording = false
      · by_cases hdur : SPEECH_START_DURATION < t - s.speechStartTime
        · rw [vadStep_speech_start s t e h1 hv hrec hdur]
          exact ⟨fun hc => by simp [hv] at hc, fun _ hc => by simp at hc⟩
        · rw [vadStep_speech_continue s t e h1 hv (by tauto)]
          refine ⟨fun hc => by simp [hv] at hc, fun _ _ => ?_⟩
          obtain ⟨pre, e0, mid, heq, he0, hmid, hpre⟩ := hepisode hv hrec
          refine ⟨pre, e0, mid ++ [(t, e)], ?_, he0, ?_, hpre⟩
          · rw [heq]
            simp
          · intro x hx
            rcases List.mem_append.mp hx with hx | hx
            · exact hmid x hx
            · simp only [List.mem_singleton] at hx
              simpa [hx] using h1
      · rw [vadStep_speech_continue s t e h1 hv (by tauto)]
        refine ⟨fun hc => by simp [hv] at hc, fun _ hc => ?_⟩
        simp only at hc
        exact absurd hc hrec
    · simp only [Bool.not_eq_true] at hv
      rw [vadStep_speech_first s t e h1 hv]
      refine ⟨fun hc => by simp at hc, fun _ _ => ?_⟩
      exact ⟨h, e, [], by simp, h1, by simp, hbelow hv⟩
  · have h1 : e ≤ SPEECH_THRESHOLD := Nat.not_lt.mp h1
    have hlast : belowLast (h ++ [(t, e)]) := Or.inr ⟨h, t, e, rfl, h1⟩
    by_cases hrec : s.isCurrentlyRecording = true
    · by_cases hv : s.voiceDetection = true
      · by_cases hc : SPEECH_END_DURATION < t - s.lastSpeechTime ∧
          MIN_RECORDING_TIME < t - s.recStartTime
        · rw [vadStep_silence_stop s t e h1 hv hrec hc.1 hc.2]
          exact ⟨fun _ => hlast, fun hvd _ => by simp at hvd⟩
        · rw [vadStep_silence_wait s t e h1 hv hrec hc]
          exact ⟨fun _ => hlast, fun _ hr => by rw [hrec] at hr; exact Bool.noConfusion hr⟩
      · simp only [Bool.not_eq_true] at hv
        rw [vadStep_silence_keep s t e h1 hv hrec]
        exact ⟨fun _ => hlast, fun hvd _ => by rw [hv] at hvd; exact Bool.noConfusion hvd⟩
    · simp only [Bool.not_eq_true] at hrec
      rw [vadStep_silence_reset s t e h1 hrec]
      exact ⟨fun _ => hlast, fun hvd _ => by simp at hvd⟩

theorem vadInv_run_aux :
    ∀ (rest h : List (Int × Nat)) (s : VadState),
      vadInv h s → vadInv (h ++ rest) (vadRunState s rest)
  | [], h, s, hi => by simpa using hi
  | (t, e) :: rest, h, s, hi => by
    have h2 := vadInv_run_aux rest (h ++ [(t, e)]) (vadStep s t e).1
      (vadInv_step h s t e hi)
    rw [vadRunState]
    simpa using h2

/-- Every reachable state of the monitor satisfies the invariant. -/
theorem vadInv_run (h : List (Int × Nat)) : vadInv h (vadRunState vadInit h) := by
  simpa using vadInv_run_aux h [] vadInit vadInv_init

/-- Claim C2: over any tick sequence, (a) `startAutomaticRecording` is
invoked at most once between one recording stop and the next (the
start / stop invocations alternate, beginning in the not-recording
state), and (b) a tick invokes `startAutomaticRecording` only if it is
above the speech threshold and closes a block of consecutive
above-threshold ticks that began more than 200 ms earlier at the first
above-threshold tick of the episode. -/
theorem vad_start_once_and_debounced (ticks : List (Int × Nat)) :
    startsAlternate false (vadRunEvents vadInit ticks) = true ∧
    (∀ h t e rest, ticks = h ++ (t, e) :: rest →
      (vadStep (vadRunState vadInit h) t e).2 = some VadEvent.start →
      SPEECH_THRESHOLD < e ∧
      ∃ t0, SPEECH_START_DURATION < t - t0 ∧ speechEpisode h t0) := by
  constructor
  · exact vadRunEvents_alternate ticks vadInit
  · intro h t e _ _ hstart
    have hinv := vadInv_run h
    set s := vadRunState vadInit h with hs
    by_cases h1 : SPEECH_THRESHOLD < e
    · refine ⟨h1, ?_⟩
      by_cases hv : s.voiceDetection = true
      · by_cases hrec : s.isCurrentlyRecording = false
        · by_cases hdur : SPEECH_START_DURATION < t - s.speechStartTime
          · exact ⟨s.speechStartTime, hdur, hinv.2 hv hrec⟩
          · rw [vadStep_speech_continue s t e h1 hv (by tauto)] at hstart
            simp at hstart
        · rw [vadStep_speech_continue s t e h1 hv (by tauto)] at hstart
          simp at hstart
      · simp only [Bool.not_eq_true] at hv
        rw [vadStep_speech_first s t e h1 hv] at hstart
        simp at hstart
    · exfalso
      have h1 : e ≤ SPEECH_THRESHOLD := Nat.not_lt.mp h1
      by_cases hrec : s.isCurrentlyRecording = true
      · by_cases hv : s.voiceDetection = true
        · by_cases hc : SPEECH_END_DURATION < t - s.lastSpeechTime ∧
            MIN_RECORDING_TIME < t - s.recStartTime
          · rw [vadStep_silence_stop s t e h1 hv hrec hc.1 hc.2] at hstart
            simp at hstart
          · rw [vadStep_silence_wait s t e h1 hv hrec hc] at hstart
            simp at hstart
        · simp only [Bool.not_eq_true] at hv
          rw [vadStep_silence_keep s t e h1 hv hrec] at hstart
          simp at hstart
      · simp only [Bool.not_eq_true] at hrec
        rw [vadStep_silence_reset s t e h1 hrec] at hstart
        simp at hstart

/-- Witness for C2 at the concrete tick sequence
[(0, 20), (300, 20), (1600, 0)]: the run alternates, and the start
fired at time 300 closes the above-threshold episode begun at time 0,
more than 200 ms earlier. -/
theorem vad_start_once_and_debounced_witness :
    startsAlternate false (vadRunEvents vadInit [(0, 20), (300, 20), (1600, 0)]) = true ∧
    (SPEECH_THRESHOLD < 20 ∧
      ∃ t0, SPEECH_START_DURATION < 300 - t0 ∧ speechEpisode [((0 : Int), (20 : Nat))] t0) := by
  have h := vad_start_once_and_debounced [(0, 20), (300, 20), (1600, 0)]
  exact ⟨h.1, h.2 [(0, 20)] 300 20 [(1600, 0)] rfl (by decide)⟩

/-!
Conversation orchestrator data model (src/unnamed/part_000 lines
18-35): the ordered message log and the voice-state flags that the
claims mention.  One turn of `processRecording` / `handleTextSubmit`
is modelled as a function from the pre-turn state and the outcomes of
the external collaborators to the post-turn observables.
-/

inductive Role
  | user
  | assistant
  deriving DecidableEq, Repr

structure Msg where
  id : Nat
  type : Role
  content : String
  model : Option String := none
  isStreaming : Bool := false
  audioUrl : Option String := none
  deriving DecidableEq, Repr

structure OrchState where
  messages : List Msg
  isProcessing : Bool
  showTextFallback : Bool
  selectedModel : String
  deriving DecidableEq, Repr

/-- The arguments of one `blink.ai.streamText` call. -/
structure GenRequest where
  history : List (String × String)
  model : String
  maxTokens : Nat
  deriving DecidableEq, Repr

/-- Observable outcome of one `processRecording` call. -/
structure TurnResult where
  messages : List Msg
  isProcessing : Bool
  showTextFallback : Bool
  transcriptionCalled : Bool
  generationRequest : Option GenRequest
  synthesisRequested : Option String
  playRequested : Option String
  conversationCompleteCalled : Bool
  deriving DecidableEq, Repr

/-- `result.text?.trim() || ''`: a missing text field is coerced to the
empty string, a present one is trimmed (`||` then maps an empty trim
back to the empty string). -/
def transcriptText : Option String → String
  | none => ""
  | some s => jsOrEmpty (jsTrim s)

/-- `messages.slice(-6).map(...)`: the last six logged messages as
role / content pairs. -/
def historyWindow (msgs : List Msg) : List (String × String) :=
  (msgs.drop (msgs.length - 6)).map fun m =>
    (if m.type = Role.user then "user" else "assistant", m.content)

/-- `setMessages(prev => prev.map(msg => msg.id === i ? f(msg) : msg))`. -/
def updateById (i : Nat) (f : Msg → Msg) (ms : List Msg) : List Msg :=
  ms.map fun m => if m.id = i then f m else m

def apologyText : String :=
  "Sorry, I encountered an error processing your request. Please try again."

def shortTranscriptFallbackText : String :=
  "I couldn\x27t hear you clearly. Please try speaking again or use the text input below."

def transcribeFailedFallbackText : String :=
  "Sorry, I had trouble understanding your audio. Please try the text input below."

/-- An assistant-authored fallback message (`id` is `Date.now()`). -/
def fallbackMsg (now : Nat) (content : String) : Msg :=
  { id := now, type := Role.assistant, content := content }

/-- The generation / synthesis / completion tail of a successful
transcription: append the user message and the empty streaming
assistant message, stream the reply into it (the delivered chunks are
`genChunks`; `genOk` is false when `streamText` raised, in which case
the accumulated content is replaced by the fixed apology), mark it
non-streaming, then request speech synthesis for the response text and
report the turn complete. -/
def runGenerationTurn (st : OrchState) (now : Nat) (text : String)
    (genChunks : List String) (genOk : Bool)
    (synthesize : Except Unit String) : TurnResult :=
  let userMsg : Msg := { id := now, type := Role.user, content := text }
  let model := determineOptimalModel st.selectedModel text
  let asstId := now + 1
  let asstMsg : Msg :=
    { id := asstId, type := Role.assistant, content := "", model := some model,
      isStreaming := true }
  let msgs2 := st.messages ++ [userMsg] ++ [asstMsg]
  let req : GenRequest :=
    { history := historyWindow st.messages ++ [("user", text)],
      model := if model = "auto" then "gpt-4o-mini" else model, maxTokens := 300 }
  let responseText := if genOk then genChunks.foldl (fun a c => a ++ c) "" else apologyText
  let msgs3 := updateById asstId (fun m => { m with content := responseText }) msgs2
  let msgs4 := updateById asstId (fun m => { m with isStreaming := false }) msgs3
  match synthesize with
  | Except.ok url =>
    { messages := updateById asstId (fun m => { m with audioUrl := some url }) msgs4,
      isProcessing := false, showTextFallback := st.showTextFallback,
      transcriptionCalled := true, generationRequest := some req,
      synthesisRequested := some responseText, playRequested := some url,
      conversationCompleteCalled := true }
  | Except.error _ =>
    { messages := msgs4, isProcessing := false, showTextFallback := st.showTextFallback,
      transcriptionCalled := true, generationRequest := some req,
      synthesisRequested := some responseText, playRequested := none,
      conversationCompleteCalled := true }

/-- `processRecording` (src/unnamed/part_000 lines 124-283; the
src/src/App.tsx variant at lines 153-341 differs only in the minimum
blob size - 100 bytes instead of 500 - an authentication check, and
message wording).  `chunkSizes` are the byte sizes of the buffered
`audioChunksRef` entries; the blob size is their sum.  `transcribe` is
the outcome of `blink.ai.transcribeAudio` (its text field is optional),
`genChunks` / `genOk` the outcome of `blink.ai.streamText`, and
`synthesize` the outcome of `blink.ai.generateSpeech`. -/
def processRecording (minBlobSize : Nat) (st : OrchState) (chunkSizes : List Nat)
    (now : Nat) (transcribe : Except Unit (Option String))
    (genChunks : List String) (genOk : Bool)
    (synthesize : Except Unit String) : TurnResult :=
  if chunkSizes.length = 0 then
    -- no chunks buffered: return before isProcessing is ever set
    { messages := st.messages, isProcessing := st.isProcessing,
      showTextFallback := st.showTextFallback, transcriptionCalled := false,
      generationRequest := none, synthesisRequested := none, playRequested := none,
      conversationCompleteCalled := false }
  else if chunkSizes.foldl (fun a b => a + b) 0 < minBlobSize then
    -- blob too small: discard, clear isProcessing, consume nothing
    { messages := st.messages, isProcessing := false,
      showTextFallback := st.showTextFallback, transcriptionCalled := false,
      generationRequest := none, synthesisRequested := none, playRequested := none,
      conversationCompleteCalled := false }
  else
    match transcribe with
    | Except.error _ =>
      { messages := st.messages ++ [fallbackMsg now transcribeFailedFallbackText],
        isProcessing := false, showTextFallback := true, transcriptionCalled := true,
        generationRequest := none, synthesisRequested := none, playRequested := none,
        conversationCompleteCalled := false }
    | Except.ok tRes =>
      let text := transcriptText tRes
      if text = "" ∨ text.length < 2 then
        { messages := st.messages ++ [fallbackMsg now shortTranscriptFallbackText],
          isProcessing := false, showTextFallback := true, transcriptionCalled := true,
          generationRequest := none, synthesisRequested := none, playRequested := none,
          conversationCompleteCalled := false }
      else
        runGenerationTurn st now text genChunks genOk synthesize

/-- All-whitespace strings trim to the empty string. -/
theorem jsTrim_of_all_whitespace (s : String) (h : ∀ c ∈ s.data, c.isWhitespace) :
    jsTrim s = "" := by
  unfold jsTrim
  rw [List.dropWhile_eq_nil_iff.mpr h]
  rfl

/-- Claim C5: a finalized clip whose byte size is below the minimum
blob threshold (100 bytes in src/src/App.tsx, 500 in
src/unnamed/part_000; the threshold is the `minBlobSize` parameter) is
discarded before the transcription collaborator is ever called: no
message is appended, no generation or synthesis is requested, the
conversation-complete callback is not invoked, and the processing flag
is cleared so the machine returns to idle. -/
theorem processRecording_small_clip_discarded (minBlobSize : Nat) (st : OrchState)
    (chunkSizes : List Nat) (now : Nat) (transcribe : Except Unit (Option String))
    (genChunks : List String) (genOk : Bool) (syn : Except Unit String)
    (hne : chunkSizes.length ≠ 0)
    (hsz : chunkSizes.foldl (fun a b => a + b) 0 < minBlobSize) :
    processRecording minBlobSize st chunkSizes now transcribe genChunks genOk syn =
      { messages := st.messages, isProcessing := false,
        showTextFallback := st.showTextFallback, transcriptionCalled := false,
        generationRequest := none, synthesisRequested := none, playRequested := none,
        conversationCompleteCalled := false } := by
  unfold processRecording
  rw [if_neg hne, if_pos hsz]

/-- Witness for C5: a single 80-byte chunk is below the 100-byte
threshold of the App.tsx variant and is discarded untranscribed. -/
theorem processRecording_small_clip_discarded_witness :
    ([80].length ≠ 0 ∧ [80].foldl (fun a b => a + b) 0 < 100) ∧
    processRecording 100
        { messages := [], isProcessing := true, showTextFallback := false,
          selectedModel := "auto" }
        [80] 7 (Except.ok (some "hello")) ["x"] true (Except.ok "u") =
      { messages := [], isProcessing := false, showTextFallback := false,
        transcriptionCalled := false, generationRequest := none,
        synthesisRequested := none, playRequested := none,
        conversationCompleteCalled := false } :=
  ⟨⟨by decide, by decide⟩,
    processRecording_small_clip_discarded 100
      { messages := [], isProcessing := true, showTextFallback := false,
        selectedModel := "auto" }
      [80] 7 (Except.ok (some "hello")) ["x"] true (Except.ok "u")
      (by decide) (by decide)⟩

/-- Shared branch lemma: a successful transcription whose coerced and
trimmed text is shorter than 2 characters takes the
"could not hear you clearly" fallback branch. -/
theorem processRecording_short_branch (minBlobSize : Nat) (st : OrchState)
    (chunkSizes : List Nat) (now : Nat) (tRes : Option String) (genChunks : List String)
    (genOk : Bool) (syn : Except Unit String)
    (hne : chunkSizes.length ≠ 0)
    (hsz : minBlobSize ≤ chunkSizes.foldl (fun a b => a + b) 0)
    (hshort : (transcriptText tRes).length < 2) :
    processRecording minBlobSize st chunkSizes now (Except.ok tRes) genChunks genOk syn =
      { messages := st.messages ++ [fallbackMsg now shortTranscriptFallbackText],
        isProcessing := false, showTextFallback := true, transcriptionCalled := true,
        generationRequest := none, synthesisRequested := none, playRequested := none,
        conversationCompleteCalled := false } := by
  unfold processRecording
  rw [if_neg hne, if_neg (Nat.not_lt.mpr hsz)]
  show (if transcriptText tRes = "" ∨ (transcriptText tRes).length < 2 then _ else _) = _
  rw [if_pos (Or.inr hshort)]

/-- Claim C3: when transcription succeeds but returns an empty string
or a transcript of fewer than 2 characters, `processRecording` appends
exactly one assistant-authored fallback message (and no user message),
requests no generation, never invokes the conversation-complete
callback, sets the show-text-fallback flag, and clears the processing
flag so the machine returns to idle. -/
theorem processRecording_empty_transcript_fallback (minBlobSize : Nat) (st : OrchState)
    (chunkSizes : List Nat) (now : Nat) (tRes : Option String) (genChunks : List String)
    (genOk : Bool) (syn : Except Unit String)
    (hne : chunkSizes.length ≠ 0)
    (hsz : minBlobSize ≤ chunkSizes.foldl (fun a b => a + b) 0)
    (hshort : transcriptText tRes = "" ∨ (transcriptText tRes).length < 2) :
    (processRecording minBlobSize st chunkSizes now (Except.ok tRes) genChunks genOk
        syn).messages =
      st.messages ++ [fallbackMsg now shortTranscriptFallbackText] ∧
    (fallbackMsg now shortTranscriptFallbackText).type = Role.assistant ∧
    (processRecording minBlobSize st chunkSizes now (Except.ok tRes) genChunks genOk
        syn).generationRequest = none ∧
    (processRecording minBlobSize st chunkSizes now (Except.ok tRes) genChunks genOk
        syn).conversationCompleteCalled = false ∧
    (processRecording minBlobSize st chunkSizes now (Except.ok tRes) genChunks genOk
        syn).showTextFallback = true ∧
    (processRecording minBlobSize st chunkSizes now (Except.ok tRes) genChunks genOk
        syn).isProcessing = false := by
  have hlen : (transcriptText tRes).length < 2 := by
    rcases hshort with h | h
    · rw [h]
      decide
    · exact h
  rw [processRecording_short_branch minBlobSize st chunkSizes now tRes genChunks genOk syn
    hne hsz hlen]
  exact ⟨rfl, rfl, rfl, rfl, rfl, rfl⟩

/-- Witness for C3: transcription returning the empty string after a
600-byte clip (threshold 500, the part_000 variant) yields exactly the
fallback message and no turn. -/
theorem processRecording_empty_transcript_fallback_witness :
    (([600] : List Nat).length ≠ 0 ∧ 500 ≤ [600].foldl (fun a b => a + b) 0 ∧
      (transcriptText (some "") = "" ∨ (transcriptText (some "")).length < 2)) ∧
    (processRecording 500
        { messages := [], isProcessing := true, showTextFallback := false,
          selectedModel := "auto" }
        [600] 7 (Except.ok (some "")) ["x"] true (Except.ok "u")).messages =
      [] ++ [fallbackMsg 7 shortTranscriptFallbackText] ∧
    (processRecording 500
        { messages := [], isProcessing := true, showTextFallback := false,
          selectedModel := "auto" }
        [600] 7 (Except.ok (some "")) ["x"] true (Except.ok "u")).generationRequest =
      none := by
  have h := processRecording_empty_transcript_fallback 500
    { messages := [], isProcessing := true, showTextFallback := false,
      selectedModel := "auto" }
    [600] 7 (some "") ["x"] true (Except.ok "u")
    (by decide) (by decide) (Or.inl (by decide))
  exact ⟨⟨by decide, by decide, Or.inl (by decide)⟩, h.1, h.2.2.1⟩

/-- Claim C10: the transcription result is trimmed (and a missing text
field coerced to the empty string) before the length-2 check, so a
whitespace-only transcript of any length is treated exactly like an
empty one: the fallback branch is taken, no user message is appended
and no generation request is made. -/
theorem processRecording_whitespace_transcript (minBlobSize : Nat) (st : OrchState)
    (chunkSizes : List Nat) (now : Nat) (s : String) (genChunks : List String)
    (genOk : Bool) (syn : Except Unit String)
    (hne : chunkSizes.length ≠ 0)
    (hsz : minBlobSize ≤ chunkSizes.foldl (fun a b => a + b) 0)
    (hws : ∀ c ∈ s.data, c.isWhitespace) :
    transcriptText (some s) = "" ∧
    processRecording minBlobSize st chunkSizes now (Except.ok (some s)) genChunks genOk
        syn =
      { messages := st.messages ++ [fallbackMsg now shortTranscriptFallbackText],
        isProcessing := false, showTextFallback := true, transcriptionCalled := true,
        generationRequest := none, synthesisRequested := none, playRequested := none,
        conversationCompleteCalled := false } := by
  have htrim : transcriptText (some s) = "" := by
    show jsOrEmpty (jsTrim s) = ""
    rw [jsTrim_of_all_whitespace s hws]
    rfl
  refine ⟨htrim, ?_⟩
  exact processRecording_short_branch minBlobSize st chunkSizes now (some s) genChunks
    genOk syn hne hsz (by rw [htrim]; decide)

/-- Witness for C10: a transcript of six spaces is coerced to the empty
string and discarded through the fallback branch. -/
theorem processRecording_whitespace_transcript_witness :
    (([600] : List Nat).length ≠ 0 ∧ 500 ≤ [600].foldl (fun a b => a + b) 0 ∧
      (∀ c ∈ "      ".data, c.isWhitespace)) ∧
    transcriptText (some "      ") = "" ∧
    processRecording 500
        { messages := [], isProcessing := true, showTextFallback := false,
          selectedModel := "auto" }
        [600] 7 (Except.ok (some "      ")) ["x"] true (Except.ok "u") =
      { messages := [] ++ [fallbackMsg 7 shortTranscriptFallbackText],
        isProcessing := false, showTextFallback := true, transcriptionCalled := true,
        generationRequest := none, synthesisRequested := none, playRequested := none,
        conversationCompleteCalled := false } := by
  have h := processRecording_whitespace_transcript 500
    { messages := [], isProcessing := true, showTextFallback := false,
      selectedModel := "auto" }
    [600] 7 "      " ["x"] true (Except.ok "u")
    (by decide) (by decide) (by decide)
  exact ⟨⟨by decide, by decide, by decide⟩, h⟩

theorem updateById_concat (i : Nat) (f : Msg → Msg) (l : List Msg) (m : Msg) :
    updateById i f (l ++ [m]) = updateById i f l ++ [if m.id = i then f m else m] := by
  simp [updateById]

theorem updateById_getLast? (i : Nat) (f : Msg → Msg) :
    ∀ l : List Msg,
      (updateById i f l).getLast? = l.getLast?.map fun m => if m.id = i then f m else m
  | [] => rfl
  | [_] => rfl
  | a :: b :: l => by
    have ih := updateById_getLast? i f (b :: l)
    simp only [updateById, List.map_cons, List.getLast?_cons_cons] at ih ⊢
    exact ih

/-- A generation turn always leaves the freshly appended assistant
message last in the log: its content is the streamed text when
generation succeeded and the fixed apology when it raised, it is marked
non-streaming either way, and synthesis is requested for exactly that
content. -/
theorem runGenerationTurn_fields (st : OrchState) (now : Nat) (text : String)
    (genChunks : List String) (genOk : Bool) (syn : Except Unit String) :
    (runGenerationTurn st now text genChunks genOk syn).synthesisRequested =
      some (if genOk then genChunks.foldl (fun a c => a ++ c) "" else apologyText) ∧
    ∃ m, (runGenerationTurn st now text genChunks genOk syn).messages.getLast? = some m ∧
      m.type = Role.assistant ∧
      m.content = (if genOk then genChunks.foldl (fun a c => a ++ c) "" else apologyText) ∧
      m.isStreaming = false := by
  cases syn with
  | ok url =>
    refine ⟨rfl, ?_⟩
    have hlast :
        (runGenerationTurn st now text genChunks genOk
            (Except.ok url)).messages.getLast? =
          some { id := now + 1, type := Role.assistant,
                 content := if genOk then genChunks.foldl (fun a c => a ++ c) ""
                   else apologyText,
                 model := some (determineOptimalModel st.selectedModel text),
                 isStreaming := false, audioUrl := some url } := by
      simp [runGenerationTurn, updateById_getLast?, List.getLast?_append_cons]
    exact ⟨_, hlast, rfl, rfl, rfl⟩
  | error e =>
    refine ⟨rfl, ?_⟩
    have hlast :
        (runGenerationTurn st now text genChunks genOk
            (Except.error e)).messages.getLast? =
          some { id := now + 1, type := Role.assistant,
                 content := if genOk then genChunks.foldl (fun a c => a ++ c) ""
                   else apologyText,
                 model := some (determineOptimalModel st.selectedModel text),
                 isStreaming := false, audioUrl := none } := by
      simp [runGenerationTurn, updateById_getLast?, List.getLast?_append_cons]
    exact ⟨_, hlast, rfl, rfl, rfl⟩

/-- Shared branch lemma: a successful transcription of at least 2
characters proceeds to the generation turn. -/
theorem processRecording_success_branch (minBlobSize : Nat) (st : OrchState)
    (chunkSizes : List Nat) (now : Nat) (tRes : Option String) (genChunks : List String)
    (genOk : Bool) (syn : Except Unit String)
    (hne : chunkSizes.length ≠ 0)
    (hsz : minBlobSize ≤ chunkSizes.foldl (fun a b => a + b) 0)
    (hlong : 2 ≤ (transcriptText tRes).length) :
    processRecording minBlobSize st chunkSizes now (Except.ok tRes) genChunks genOk syn =
      runGenerationTurn st now (transcriptText tRes) genChunks genOk syn := by
  have hcond : ¬ (transcriptText tRes = "" ∨ (transcriptText tRes).length < 2) := by
    rintro (h | h)
    · rw [h] at hlong
      exact absurd hlong (by decide)
    · omega
  unfold processRecording
  rw [if_neg hne, if_neg (Nat.not_lt.mpr hsz)]
  show (if transcriptText tRes = "" ∨ (transcriptText tRes).length < 2 then _ else _) = _
  rw [if_neg hcond]

/-- Claim C4: when the streamed-generation call raises during a turn,
the in-flight assistant message (last in the log) ends the turn with
its content replaced by the fixed apology string, marked non-streaming,
and speech synthesis is still requested for exactly that apology text.
The model is total, reflecting that `processRecording` catches the
generation error internally and it never escapes. -/
theorem processRecording_generation_error_apology (minBlobSize : Nat) (st : OrchState)
    (chunkSizes : List Nat) (now : Nat) (tRes : Option String) (genChunks : List String)
    (syn : Except Unit String)
    (hne : chunkSizes.length ≠ 0)
    (hsz : minBlobSize ≤ chunkSizes.foldl (fun a b => a + b) 0)
    (hlong : 2 ≤ (transcriptText tRes).length) :
    (processRecording minBlobSize st chunkSizes now (Except.ok tRes) genChunks false
        syn).synthesisRequested = some apologyText ∧
    ∃ m, (processRecording minBlobSize st chunkSizes now (Except.ok tRes) genChunks false
        syn).messages.getLast? = some m ∧
      m.type = Role.assistant ∧ m.content = apologyText ∧ m.isStreaming = false := by
  rw [processRecording_success_branch minBlobSize st chunkSizes now tRes genChunks false
    syn hne hsz hlong]
  have h := runGenerationTurn_fields st now (transcriptText tRes) genChunks false syn
  simpa using h

/-- Witness for C4: a generation failure on the transcript "hello
there" ends with the apology as the last assistant message and as the
synthesis request. -/
theorem processRecording_generation_error_apology_witness :
    (([600] : List Nat).length ≠ 0 ∧ 500 ≤ [600].foldl (fun a b => a + b) 0 ∧
      2 ≤ (transcriptText (some "hello there")).length) ∧
    (processRecording 500
        { messages := [], isProcessing := true, showTextFallback := false,
          selectedModel := "auto" }
        [600] 7 (Except.ok (some "hello there")) ["part"] false
        (Except.ok "u")).synthesisRequested = some apologyText ∧
    ∃ m, (processRecording 500
        { messages := [], isProcessing := true, showTextFallback := false,
          selectedModel := "auto" }
        [600] 7 (Except.ok (some "hello there")) ["part"] false
        (Except.ok "u")).messages.getLast? = some m ∧
      m.type = Role.assistant ∧ m.content = apologyText ∧ m.isStreaming = false := by
  have h := processRecording_generation_error_apology 500
    { messages := [], isProcessing := true, showTextFallback := false,
      selectedModel := "auto" }
    [600] 7 (some "hello there") ["part"] (Except.ok "u")
    (by decide) (by decide) (by decide)
  exact ⟨⟨by decide, by decide, by decide⟩, h⟩

/-!
Manual text path: `handleTextSubmit` (src/unnamed/part_000 lines
518-609; the src/src/App.tsx variant at lines 598-684 guards on a
missing user instead of the conversation limit and increments the
count itself).  Neither variant consults the processing flag inside
the function: while processing, submission is prevented only by the
`disabled` attribute on the text input and send button in the JSX.
-/

/-- Observable outcome of one `handleTextSubmit` call. -/
structure TextSubmitResult where
  messages : List Msg
  isProcessing : Bool
  showTextFallback : Bool
  textInput : String
  generationRequest : Option GenRequest
  synthesisRequested : Option String
  playRequested : Option String
  conversationCompleteCalled : Bool
  deriving DecidableEq, Repr

/-- The rejected-call outcome: `handleTextSubmit` returns before
touching any state. -/
def textRejected (st : OrchState) (textInput0 : String) : TextSubmitResult :=
  { messages := st.messages, isProcessing := st.isProcessing,
    showTextFallback := st.showTextFallback, textInput := textInput0,
    generationRequest := none, synthesisRequested := none, playRequested := none,
    conversationCompleteCalled := false }

/-- The body of the `try` block of `handleTextSubmit`: append the user
message and the streaming assistant message, stream the reply into it
(no inner catch here: when `streamText` raises, `genOk` is false and
control jumps to the outer catch with the delivered chunks already
logged), then mark non-streaming, synthesize, clear the input, hide the
fallback and report the turn complete. -/
def runTextTurn (st : OrchState) (textInput0 : String) (text : String) (now : Nat)
    (genChunks : List String) (genOk : Bool)
    (synthesize : Except Unit String) : TextSubmitResult :=
  let userMsg : Msg := { id := now, type := Role.user, content := text }
  let model := determineOptimalModel st.selectedModel text
  let asstId := now + 1
  let asstMsg : Msg :=
    { id := asstId, type := Role.assistant, content := "", model := some model,
      isStreaming := true }
  let msgs2 := st.messages ++ [userMsg] ++ [asstMsg]
  let req : GenRequest :=
    { history := historyWindow st.messages ++ [("user", text)],
      model := if model = "auto" then "gpt-4o-mini" else model, maxTokens := 300 }
  let responseText := genChunks.foldl (fun a c => a ++ c) ""
  let msgs3 := updateById asstId (fun m => { m with content := responseText }) msgs2
  if genOk = false then
    { messages := msgs3, isProcessing := false, showTextFallback := st.showTextFallback,
      textInput := textInput0, generationRequest := some req,
      synthesisRequested := none, playRequested := none,
      conversationCompleteCalled := false }
  else
    let msgs4 := updateById asstId (fun m => { m with isStreaming := false }) msgs3
    match synthesize with
    | Except.ok url =>
      { messages := updateById asstId (fun m => { m with audioUrl := some url }) msgs4,
        isProcessing := false, showTextFallback := false, textInput := "",
        generationRequest := some req, synthesisRequested := some responseText,
        playRequested := some url, conversationCompleteCalled := true }
    | Except.error _ =>
      { messages := msgs4, isProcessing := false, showTextFallback := false,
        textInput := "", generationRequest := some req,
        synthesisRequested := some responseText, playRequested := none,
        conversationCompleteCalled := true }

/-- `handleTextSubmit` itself: the only guard is blank (trimmed-empty)
text or, in the part_000 variant, the reached conversation limit. -/
def handleTextSubmit (conversationCount maxFreeConversations : Nat) (st : OrchState)
    (textInput0 : String) (text : String) (now : Nat) (genChunks : List String)
    (genOk : Bool) (synthesize : Except Unit String) : TextSubmitResult :=
  if jsTrim text = "" ∨ maxFreeConversations ≤ conversationCount then
    textRejected st textInput0
  else
    runTextTurn st textInput0 text now genChunks genOk synthesize

theorem runTextTurn_messages_length (st : OrchState) (ti text : String) (now : Nat)
    (genChunks : List String) (genOk : Bool) (syn : Except Unit String) :
    (runTextTurn st ti text now genChunks genOk syn).messages.length =
      st.messages.length + 2 := by
  cases genOk with
  | false => simp [runTextTurn, updateById]
  | true => cases syn <;> simp [runTextTurn, updateById]

/-- A state with the processing flag set, as during an in-flight
turn. -/
def procBusyState : OrchState :=
  { messages := [], isProcessing := true, showTextFallback := true,
    selectedModel := "auto" }

/-- Claim C6 counterexample: `handleTextSubmit` does not consult the
processing flag.  With processing in progress, submitting the nonempty
text "hello" proceeds: the log grows from 0 to 2 messages, so the
claim that such a call returns with the log unchanged is false on the
code (in the source, submission while processing is prevented only by
the disabled text input and send button in the JSX, not by
`handleTextSubmit`). -/
theorem handleTextSubmit_during_processing_appends :
    procBusyState.isProcessing = true ∧
    procBusyState.messages.length = 0 ∧
    (handleTextSubmit 0 8 procBusyState "" "hello" 10 ["hi"] true
        (Except.error ())).messages.length = 2 ∧
    (handleTextSubmit 0 8 procBusyState "" "hello" 10 ["hi"] true
        (Except.error ())).generationRequest ≠ none := by
  refine ⟨rfl, rfl, ?_, ?_⟩ <;> decide

/-- Claim C6 (amended): `handleTextSubmit` leaves the message log
unchanged exactly when the trimmed text is empty or the conversation
limit is reached - the processing flag plays no role - and in that
case it returns with no message appended, no generation request and no
state change. -/
theorem handleTextSubmit_guard_characterization (conversationCount maxFree : Nat)
    (st : OrchState) (ti text : String) (now : Nat) (genChunks : List String)
    (genOk : Bool) (syn : Except Unit String) :
    ((handleTextSubmit conversationCount maxFree st ti text now genChunks genOk
        syn).messages = st.messages ↔
      (jsTrim text = "" ∨ maxFree ≤ conversationCount)) ∧
    ((jsTrim text = "" ∨ maxFree ≤ conversationCount) →
      handleTextSubmit conversationCount maxFree st ti text now genChunks genOk syn =
        textRejected st ti) := by
  have hlen := runTextTurn_messages_length st ti text now genChunks genOk syn
  refine ⟨⟨?_, ?_⟩, ?_⟩
  · intro hmsg
    by_cases hg : jsTrim text = "" ∨ maxFree ≤ conversationCount
    · exact hg
    · exfalso
      have heq : handleTextSubmit conversationCount maxFree st ti text now genChunks
          genOk syn = runTextTurn st ti text now genChunks genOk syn := by
        unfold handleTextSubmit
        rw [if_neg hg]
      rw [heq] at hmsg
      have hc := congrArg List.length hmsg
      rw [hlen] at hc
      omega
  · intro hg
    unfold handleTextSubmit
    rw [if_pos hg]
    rfl
  · intro hg
    unfold handleTextSubmit
    rw [if_pos hg]

/-- Witness for the amended C6: blank input is rejected unchanged. -/
theorem handleTextSubmit_guard_characterization_witness :
    (jsTrim "   " = "" ∨ 8 ≤ 0) ∧
    handleTextSubmit 0 8 procBusyState "x" "   " 10 ["hi"] true (Except.ok "u") =
      textRejected procBusyState "x" :=
  ⟨Or.inl (by decide),
    (handleTextSubmit_guard_characterization 0 8 procBusyState "x" "   " 10 ["hi"] true
      (Except.ok "u")).2 (Or.inl (by decide))⟩

/-!
Rate limiting (src/unnamed/part_000 lines 94-95, 411-412, 518-519, and
src/src/App.tsx lines 576-583): `hasReachedLimit` is
`conversationCount >= maxFreeConversations`.
-/

structure ListenState where
  isListening : Bool
  hasStream : Bool
  deriving DecidableEq, Repr

/-- `startContinuousListening` (src/unnamed/part_000 lines 411-437):
refuses when the free-conversation limit is reached; otherwise acquires
the microphone (the `mic` oracle) and starts listening; on microphone
failure an alert is shown and the state is unchanged. -/
def startContinuousListening (conversationCount maxFreeConversations : Nat)
    (st : ListenState) (mic : Except Unit Unit) : ListenState :=
  if maxFreeConversations ≤ conversationCount then st
  else
    match mic with
    | Except.ok _ => { st with hasStream := true, isListening := true }
    | Except.error _ => st

/-- `handleStartChat` (src/src/App.tsx lines 576-583): entering the
chat is refused once the count reaches the hard-coded maximum of 8;
otherwise the chat is shown and the count incremented.  Returns the
new (count, showChat) pair. -/
def handleStartChat (conversationCount : Nat) (showChat : Bool) : Nat × Bool :=
  if 8 ≤ conversationCount then (conversationCount, showChat)
  else (conversationCount + 1, true)

/-- Claim C7: once the running conversation count has reached the
configured maximum, no new turn can start by either path: starting
continuous listening is refused with the listening state unchanged,
manual text submission is refused with the message log and voice state
unchanged, and (App.tsx) entering the chat is refused with the count
and page unchanged. -/
theorem limit_blocks_new_turns (conversationCount maxFree : Nat) (ls : ListenState)
    (mic : Except Unit Unit) (st : OrchState) (ti text : String) (now : Nat)
    (genChunks : List String) (genOk : Bool) (syn : Except Unit String)
    (appCount : Nat) (showChat : Bool)
    (h : maxFree ≤ conversationCount) (h8 : 8 ≤ appCount) :
    startContinuousListening conversationCount maxFree ls mic = ls ∧
    handleTextSubmit conversationCount maxFree st ti text now genChunks genOk syn =
      textRejected st ti ∧
    handleStartChat appCount showChat = (appCount, showChat) := by
  refine ⟨?_, ?_, ?_⟩
  · unfold startContinuousListening
    rw [if_pos h]
  · unfold handleTextSubmit
    rw [if_pos (Or.inr h)]
  · unfold handleStartChat
    rw [if_pos h8]

/-- Witness for C7 at count 8 of maximum 8. -/
theorem limit_blocks_new_turns_witness :
    (8 ≤ 8 ∧ 8 ≤ 9) ∧
    startContinuousListening 8 8 { isListening := false, hasStream := false }
        (Except.ok ()) = { isListening := false, hasStream := false } ∧
    handleTextSubmit 8 8 procBusyState "x" "hello" 10 ["hi"] true (Except.ok "u") =
      textRejected procBusyState "x" ∧
    handleStartChat 9 false = (9, false) := by
  have h := limit_blocks_new_turns 8 8 { isListening := false, hasStream := false }
    (Except.ok ()) procBusyState "x" "hello" 10 ["hi"] true (Except.ok "u") 9 false
    (by decide) (by decide)
  exact ⟨⟨by decide, by decide⟩, h⟩

end VoiceAI
